import Mathlib

/-!
Shallow embedding of the `cloudflare-proxy-worker` repository: the SOCKS5
client handshake (`socks5.connect` in `src/index.js`, `socks5Connect` in the
unnamed worker file) and the two `fetch` request handlers built on it.

Byte streams are modelled as lists of natural numbers below 256; a call to
`reader.read()` consumes one chunk from a prescribed reply script, returning
`none` when the stream is exhausted (JavaScript `{done: true, value:
undefined}`).  JavaScript `Uint8Array` element coercion is `% 256`;
`TextEncoder.encode` is UTF-8.
-/

/-- UTF-8 bytes of one character, as produced by JavaScript `TextEncoder`. -/
def utf8Bytes (c : Char) : List Nat :=
  let n := c.toNat
  if n < 0x80 then [n]
  else if n < 0x800 then
    [0xC0 ||| (n >>> 6), 0x80 ||| (n &&& 0x3F)]
  else if n < 0x10000 then
    [0xE0 ||| (n >>> 12), 0x80 ||| ((n >>> 6) &&& 0x3F), 0x80 ||| (n &&& 0x3F)]
  else
    [0xF0 ||| (n >>> 18), 0x80 ||| ((n >>> 12) &&& 0x3F),
     0x80 ||| ((n >>> 6) &&& 0x3F), 0x80 ||| (n &&& 0x3F)]

/-- `new TextEncoder().encode(s)` as a list of byte values. -/
def textEncode (s : String) : List Nat :=
  s.data.flatMap utf8Bytes

/-- A configured upstream proxy: `{host, port, user, pass}`. -/
structure ProxyEndpoint where
  host : String
  port : Nat
  user : String
  pass : String
deriving DecidableEq, Repr

/-- Coercion of a JavaScript number into a `Uint8Array` element. -/
def toByte (n : Nat) : Nat := n % 256

/-- The 3-byte SOCKS5 greeting `[0x05, 0x01, 0x02]` sent first. -/
def greetingPacket : List Nat := [0x05, 0x01, 0x02]

/-- The username/password authentication packet
`[0x01, userLen, ...userBytes, passLen, ...passBytes]` built by the code
(`Uint8Array` coerces the length fields modulo 256). -/
def authPacket (user pass : String) : List Nat :=
  let userBytes := textEncode user
  let passBytes := textEncode pass
  0x01 :: toByte userBytes.length :: (userBytes ++ toByte passBytes.length :: passBytes)

/-- The connect-request packet
`[0x05, 0x01, 0x00, 0x03, hostLen, ...hostBytes, portHi, portLo]`
with the port split big-endian exactly as `(port >> 8) & 0xff, port & 0xff`. -/
def connectPacket (targetHost : String) (targetPort : Nat) : List Nat :=
  let hostBytes := textEncode targetHost
  [0x05, 0x01, 0x00, 0x03, toByte hostBytes.length] ++ hostBytes ++
    [(targetPort >>> 8) &&& 0xff, targetPort &&& 0xff]

/-- Validation of the greeting reply:
`!response || response[0] !== 0x05 || response[1] !== 0x02` negated.
`none` is an absent read; out-of-range indexing yields `undefined`. -/
def checkGreeting (r : Option (List Nat)) : Bool :=
  match r with
  | none => false
  | some v => v[0]? == some 0x05 && v[1]? == some 0x02

/-- Validation of the authentication reply:
`!response || response[0] !== 0x01 || response[1] !== 0x00` negated. -/
def checkAuth (r : Option (List Nat)) : Bool :=
  match r with
  | none => false
  | some v => v[0]? == some 0x01 && v[1]? == some 0x00

/-- Validation of the connect reply:
`!response || response[0] !== 0x05 || response[1] !== 0x00` negated. -/
def checkConnect (r : Option (List Nat)) : Bool :=
  match r with
  | none => false
  | some v => v[0]? == some 0x05 && v[1]? == some 0x00

/-- The errors thrown by the handshake, one per failing validation. -/
inductive HandshakeError where
  | negotiationRejected
  | authRejected
  | connectFailed (code : Option Nat)
deriving DecidableEq, Repr

/-- Either the established stream was returned, or an error was thrown. -/
inductive HandshakeOutcome where
  | established
  | failed (e : HandshakeError)
deriving DecidableEq, Repr

/-- Observable outcome of one `socks5Connect` call: the packets written to the
proxy in order, whether `socket.close()` ran, and either the established
stream or the thrown error. -/
structure ConnectResult where
  sent : List (List Nat)
  closed : Bool
  outcome : HandshakeOutcome
deriving DecidableEq, Repr

/-- `socks5Connect(proxy, targetHost, targetPort)` run against a mock proxy
whose successive `reader.read()` chunks are `script` (reads past the end of
the script return `none`).  Straight-line translation of the source: send the
greeting, read and validate; send the auth packet, read and validate; send the
connect request, read and validate; close the socket and throw on the first
failed validation, otherwise return the socket established. -/
def socks5Connect (proxy : ProxyEndpoint) (targetHost : String) (targetPort : Nat)
    (script : List (List Nat)) : ConnectResult :=
  let r1 := script[0]?
  if checkGreeting r1 then
    let r2 := script[1]?
    if checkAuth r2 then
      let r3 := script[2]?
      if checkConnect r3 then
        { sent := [greetingPacket, authPacket proxy.user proxy.pass,
                   connectPacket targetHost targetPort],
          closed := false, outcome := .established }
      else
        { sent := [greetingPacket, authPacket proxy.user proxy.pass,
                   connectPacket targetHost targetPort],
          closed := true,
          outcome := .failed (.connectFailed (r3.bind fun v => v[1]?)) }
    else
      { sent := [greetingPacket, authPacket proxy.user proxy.pass],
        closed := true, outcome := .failed .authRejected }
  else
    { sent := [greetingPacket], closed := true,
      outcome := .failed .negotiationRejected }

/-- A read result that is absent (`undefined`) or shorter than two bytes. -/
def shortRead (r : Option (List Nat)) : Bool :=
  match r with
  | none => true
  | some v => decide (v.length < 2)

/-- One `{user, pass}` credential entry parsed from `USERS_JSON`. -/
structure UserEntry where
  user : List Char
  pass : List Char
deriving DecidableEq, Repr

/-- JavaScript `s.split(':')` on the character list of the decoded string:
splits at every colon, never dropping empty segments. -/
def splitOnColon : List Char → List (List Char)
  | [] => [[]]
  | c :: rest =>
    if c = ':' then [] :: splitOnColon rest
    else
      match splitOnColon rest with
      | [] => [[c]]
      | seg :: segs => (c :: seg) :: segs

/-- The destructuring `const [user, pass] = decodedCreds.split(':')`: first
segment (`none` models JavaScript `undefined`, which cannot occur here). -/
def credsUser (s : List Char) : Option (List Char) :=
  (splitOnColon s)[0]?

/-- Second segment of the split, `none` when the decoded string has no colon
(JavaScript `undefined`). -/
def credsPass (s : List Char) : Option (List Char) :=
  (splitOnColon s)[1]?

/-- `users.some(entry => entry.user === user && entry.pass === pass)`. -/
def credsMatch (users : List UserEntry) (s : List Char) : Bool :=
  users.any fun e => credsUser s == some e.user && credsPass s == some e.pass

/-- The `Proxy-Authorization` header of an inbound request, with the external
`atob` base64 decoder abstracted: `basic d` is a header starting with
`"Basic "`, `d` the characters `atob` yields on its remainder (`none` when
`atob` throws on malformed base64). -/
inductive AuthHeader where
  | missing
  | notBasic (v : String)
  | basic (decoded : Option (List Char))
deriving DecidableEq, Repr

/-- An inbound request as the handlers consume it: auth header, method, and
the target URL's hostname and `parseInt(url.port)` (`none` when the URL
carries no port, so that `parseInt('')` yields `NaN`). -/
structure InboundRequest where
  auth : AuthHeader
  method : String
  urlHost : String
  urlPort : Option Nat
deriving DecidableEq, Repr

/-- Worker environment: parse results of the `USERS_JSON` and `PROXIES_JSON`
secrets (`none` when `JSON.parse` throws or yields a non-array value). -/
structure WorkerEnv where
  users : Option (List UserEntry)
  proxies : Option (List ProxyEndpoint)
deriving DecidableEq, Repr

/-- JavaScript `parseInt(url.port) || d`: both `NaN` and `0` are falsy. -/
def portOrDefault (p : Option Nat) (d : Nat) : Nat :=
  match p with
  | none => d
  | some n => if n == 0 then d else n

/-- The response classes a handler can return. `auth407` records whether the
`Proxy-Authenticate` challenge header was attached to the 407 response. -/
inductive RespKind where
  | auth407 (challenge : Bool)
  | config500
  | gateway502
  | tunnel200
  | upstream
deriving DecidableEq, Repr

/-- Observable outcome of one `fetch` call: the response class, whether the
proxy-selection step ran (with the `proxies[...]` element it picked — the
inner `none` is JavaScript `undefined` for an out-of-range index), the
`(targetHost, targetPort)` arguments a `socks5.connect` invocation received,
and the handshake packets actually written upstream. -/
structure FetchResult where
  resp : RespKind
  selected : Option (Option ProxyEndpoint)
  socksTarget : Option (String × Nat)
  sentBytes : List (List Nat)
deriving DecidableEq, Repr

/-- Whether the `try` block of the authentication step completes without
throwing: the header is Basic, `atob` decodes, `USERS_JSON` parses, and some
entry matches the decoded `user:pass`. -/
def authPasses (a : AuthHeader) (users : Option (List UserEntry)) : Bool :=
  match a, users with
  | .basic (some s), some us => credsMatch us s
  | _, _ => false

/-- Shared tail of the handler paths that reach `socks5.connect`: when the
selected element is `undefined` (inner `none`), reading `proxy.host` inside
the callee throws before any socket is opened and the `catch` yields the 502
response; otherwise the handshake runs and a thrown `HandshakeError` is
caught into the 502 response carrying its message. -/
def connectAndRespond (chosen : Option ProxyEndpoint) (host : String)
    (port : Nat) (script : List (List Nat)) (success : RespKind) : FetchResult :=
  match chosen with
  | none =>
    { resp := .gateway502, selected := some none,
      socksTarget := some (host, port), sentBytes := [] }
  | some p =>
    let r := socks5Connect p host port script
    match r.outcome with
    | .established =>
      { resp := success, selected := some (some p),
        socksTarget := some (host, port), sentBytes := r.sent }
    | .failed _ =>
      { resp := .gateway502, selected := some (some p),
        socksTarget := some (host, port), sentBytes := r.sent }

/-- The v2 `fetch` handler (`src/index.js`): authenticate (missing or
non-Basic header gets the 407 with the challenge header, any failure inside
the `try` gets the bare 407), parse `PROXIES_JSON` and pick index `pick`
(`Math.floor(Math.random() * proxies.length)`), then branch on the method:
`CONNECT` tunnels with default port 443 and a 200 response, anything else
re-issues the request over the tunnel with default port 80, returning the
upstream response.  An empty proxy list throws nothing here: `proxies[pick]`
is `undefined` and the failure surfaces only inside `socks5.connect`. -/
def fetchV2 (req : InboundRequest) (env : WorkerEnv) (pick : Nat)
    (script : List (List Nat)) : FetchResult :=
  match req.auth with
  | .missing =>
    { resp := .auth407 true, selected := none, socksTarget := none, sentBytes := [] }
  | .notBasic _ =>
    { resp := .auth407 true, selected := none, socksTarget := none, sentBytes := [] }
  | .basic d =>
    if authPasses (.basic d) env.users then
      match env.proxies with
      | none =>
        { resp := .config500, selected := none, socksTarget := none, sentBytes := [] }
      | some proxies =>
        if req.method == "CONNECT" then
          connectAndRespond (proxies[pick]?) req.urlHost
            (portOrDefault req.urlPort 443) script .tunnel200
        else
          connectAndRespond (proxies[pick]?) req.urlHost
            (portOrDefault req.urlPort 80) script .upstream
    else
      { resp := .auth407 false, selected := none, socksTarget := none, sentBytes := [] }

/-- The v1 `fetch` handler (the unnamed worker file): same authentication
step, explicit rejection of a null or empty proxy list inside the `try`
around proxy selection, then a single path that treats every method as a
CONNECT-style tunnel with default port 443. -/
def fetchV1 (req : InboundRequest) (env : WorkerEnv) (pick : Nat)
    (script : List (List Nat)) : FetchResult :=
  match req.auth with
  | .missing =>
    { resp := .auth407 true, selected := none, socksTarget := none, sentBytes := [] }
  | .notBasic _ =>
    { resp := .auth407 true, selected := none, socksTarget := none, sentBytes := [] }
  | .basic d =>
    if authPasses (.basic d) env.users then
      match env.proxies with
      | none =>
        { resp := .config500, selected := none, socksTarget := none, sentBytes := [] }
      | some proxies =>
        if proxies.isEmpty then
          { resp := .config500, selected := none, socksTarget := none, sentBytes := [] }
        else
          connectAndRespond (proxies[pick]?) req.urlHost
            (portOrDefault req.urlPort 443) script .tunnel200
    else
      { resp := .auth407 false, selected := none, socksTarget := none, sentBytes := [] }

/-! ## Helper lemmas -/

/-- The split of any character list is nonempty. -/
theorem splitOnColon_ne_nil (l : List Char) : splitOnColon l ≠ [] := by
  induction l with
  | nil => simp [splitOnColon]
  | cons c rest ih =>
    simp only [splitOnColon]
    split
    · simp
    · cases h : splitOnColon rest with
      | nil => simp [h]
      | cons seg segs => simp [h]

/-- No segment produced by the split contains a colon. -/
theorem mem_splitOnColon_no_colon (l : List Char) (seg : List Char)
    (hm : seg ∈ splitOnColon l) : ':' ∉ seg := by
  induction l generalizing seg with
  | nil =>
    simp [splitOnColon] at hm
    simp [hm]
  | cons c rest ih =>
    by_cases hc : c = ':'
    · simp [splitOnColon, hc] at hm
      rcases hm with h | h
      · simp [h]
      · exact ih seg h
    · simp only [splitOnColon, if_neg hc] at hm
      cases hsp : splitOnColon rest with
      | nil => exact absurd hsp (splitOnColon_ne_nil rest)
      | cons s ss =>
        rw [hsp] at hm
        simp only [List.mem_cons] at hm
        rcases hm with h | h
        · subst h
          intro hmem
          rcases List.mem_cons.mp hmem with h' | h'
          · exact hc h'.symm
          · exact ih s (hsp ▸ List.mem_cons_self s ss) h'
        · exact ih seg (hsp ▸ List.mem_cons_of_mem s h)

/-- Prepending a colon-free prefix and a colon produces one extra segment. -/
theorem splitOnColon_append_colon (u t : List Char) (hu : ':' ∉ u) :
    splitOnColon (u ++ ':' :: t) = u :: splitOnColon t := by
  induction u with
  | nil => simp [splitOnColon]
  | cons c cs ih =>
    have hc : ¬ c = ':' := fun h => hu (h ▸ List.mem_cons_self c cs)
    have hcs : ':' ∉ cs := fun h => hu (List.mem_cons_of_mem c h)
    simp only [List.cons_append, splitOnColon, if_neg hc, List.append_eq, ih hcs]

/-- The second split segment never contains a colon. -/
theorem credsPass_no_colon (s p : List Char) (h : credsPass s = some p) :
    ':' ∉ p := by
  have h' : (splitOnColon s).get? 1 = some p := by
    simpa [credsPass, List.get?_eq_getElem?] using h
  exact mem_splitOnColon_no_colon s p (List.get?_mem h')

/-- An absent or sub-2-byte read fails both two-byte validations. -/
theorem shortRead_fails_checks (r : Option (List Nat))
    (hr : shortRead r = true) :
    checkGreeting r = false ∧ checkAuth r = false := by
  match r with
  | none => exact ⟨rfl, rfl⟩
  | some [] => exact ⟨rfl, rfl⟩
  | some [a] =>
    simp [checkGreeting, checkAuth]
  | some (a :: b :: c) =>
    simp [shortRead] at hr
    exact absurd hr (by omega)

/-! ## Claim theorems -/

/-- C1: the SOCKS5 connect operation returns an established stream exactly
when the greeting, authentication, and connect-request validations all
succeed; on success the three packets were sent in that strict order, and a
failing step prevents every later packet from being sent, so no step is
skipped or reordered. -/
theorem socks5_strict_step_order (p : ProxyEndpoint) (h : String) (t : Nat)
    (s : List (List Nat)) :
    ((socks5Connect p h t s).outcome = .established ↔
      checkGreeting (s[0]?) = true ∧ checkAuth (s[1]?) = true ∧
        checkConnect (s[2]?) = true) ∧
    ((socks5Connect p h t s).outcome = .established →
      (socks5Connect p h t s).sent =
        [greetingPacket, authPacket p.user p.pass, connectPacket h t]) ∧
    (checkGreeting (s[0]?) = false →
      (socks5Connect p h t s).sent = [greetingPacket]) ∧
    (checkGreeting (s[0]?) = true → checkAuth (s[1]?) = false →
      (socks5Connect p h t s).sent =
        [greetingPacket, authPacket p.user p.pass]) := by
  cases h1 : checkGreeting (s[0]?) <;>
    cases h2 : checkAuth (s[1]?) <;>
      cases h3 : checkConnect (s[2]?) <;>
        simp [socks5Connect, h1, h2, h3]

/-- Witness for C1: a concrete successful run sends exactly the three
packets in order. -/
theorem socks5_strict_step_order_wit :
    (socks5Connect ⟨"p", 1080, "u", "w"⟩ "example.com" 443
        [[5, 2], [1, 0], [5, 0]]).sent =
      [greetingPacket, authPacket "u" "w", connectPacket "example.com" 443] :=
  (socks5_strict_step_order ⟨"p", 1080, "u", "w"⟩ "example.com" 443
    [[5, 2], [1, 0], [5, 0]]).2.1 (by decide)

/-- C2: for target `example.com:443` the connect-request packet is exactly
`05 01 00 03 0B 65 78 61 6D 70 6C 65 2E 63 6F 6D 01 BB`, and a successful
handshake sends it as its third packet. -/
theorem connectPacket_example_com :
    connectPacket "example.com" 443 =
      [0x05, 0x01, 0x00, 0x03, 0x0B, 0x65, 0x78, 0x61, 0x6D, 0x70, 0x6C, 0x65,
       0x2E, 0x63, 0x6F, 0x6D, 0x01, 0xBB] ∧
    (socks5Connect ⟨"p", 1080, "u", "w"⟩ "example.com" 443
        [[5, 2], [1, 0], [5, 0]]).sent[2]? =
      some [0x05, 0x01, 0x00, 0x03, 0x0B, 0x65, 0x78, 0x61, 0x6D, 0x70, 0x6C,
            0x65, 0x2E, 0x63, 0x6F, 0x6D, 0x01, 0xBB] := by
  exact ⟨by decide, by decide⟩

/-- C3: whenever any handshake validation step fails, the socket is closed
before the error is surfaced. -/
theorem socks5_failure_closes_socket (p : ProxyEndpoint) (h : String) (t : Nat)
    (s : List (List Nat)) (e : HandshakeError)
    (hf : (socks5Connect p h t s).outcome = .failed e) :
    (socks5Connect p h t s).closed = true := by
  cases h1 : checkGreeting (s[0]?) <;>
    cases h2 : checkAuth (s[1]?) <;>
      cases h3 : checkConnect (s[2]?) <;>
        simp_all [socks5Connect]

/-- Witness for C3: a rejected greeting closes the socket. -/
theorem socks5_failure_closes_socket_wit :
    (socks5Connect ⟨"p", 1080, "u", "w"⟩ "example.com" 443 [[5, 0]]).closed =
      true :=
  socks5_failure_closes_socket ⟨"p", 1080, "u", "w"⟩ "example.com" 443
    [[5, 0]] .negotiationRejected (by decide)

/-- C4: against a mock server replying `{05 02}`, `{01 00}`, then a reply
starting `{05 00}`, the handshake establishes for every proxy tuple whose
user and pass encode to at most 255 bytes, and the only bytes sent are the
greeting, the auth packet with true length prefixes, and the connect-request
packet. -/
theorem socks5_success_sends_exactly_three (p : ProxyEndpoint) (h : String)
    (t : Nat) (rest : List Nat)
    (hu : (textEncode p.user).length ≤ 255)
    (hp : (textEncode p.pass).length ≤ 255) :
    (socks5Connect p h t
        [[0x05, 0x02], [0x01, 0x00], 0x05 :: 0x00 :: rest]).outcome =
      .established ∧
    (socks5Connect p h t
        [[0x05, 0x02], [0x01, 0x00], 0x05 :: 0x00 :: rest]).sent =
      [[0x05, 0x01, 0x02],
       0x01 :: (textEncode p.user).length ::
         (textEncode p.user ++
           (textEncode p.pass).length :: textEncode p.pass),
       connectPacket h t] := by
  have hu' : (textEncode p.user).length % 256 = (textEncode p.user).length :=
    Nat.mod_eq_of_lt (by omega)
  have hp' : (textEncode p.pass).length % 256 = (textEncode p.pass).length :=
    Nat.mod_eq_of_lt (by omega)
  refine ⟨?_, ?_⟩ <;>
    simp [socks5Connect, checkGreeting, checkAuth, checkConnect,
      greetingPacket, authPacket, toByte, hu', hp']

/-- Witness for C4 at a concrete proxy tuple and target. -/
theorem socks5_success_sends_exactly_three_wit :
    (textEncode "u").length ≤ 255 ∧ (textEncode "w").length ≤ 255 ∧
    ((socks5Connect ⟨"p", 1080, "u", "w"⟩ "example.com" 443
        [[0x05, 0x02], [0x01, 0x00], [0x05, 0x00]]).outcome = .established ∧
     (socks5Connect ⟨"p", 1080, "u", "w"⟩ "example.com" 443
        [[0x05, 0x02], [0x01, 0x00], [0x05, 0x00]]).sent =
      [[0x05, 0x01, 0x02],
       0x01 :: (textEncode "u").length ::
         (textEncode "u" ++ (textEncode "w").length :: textEncode "w"),
       connectPacket "example.com" 443]) :=
  ⟨by decide, by decide,
   socks5_success_sends_exactly_three ⟨"p", 1080, "u", "w"⟩ "example.com" 443
     [] (by decide) (by decide)⟩

/-- C5 counterexample: a three-byte greeting reply chunk is accepted whole
and the handshake still establishes, so the greeting step does not read
exactly two response bytes before validating. -/
theorem greeting_read_not_exactly_two_bytes :
    (socks5Connect ⟨"p", 1080, "u", "w"⟩ "example.com" 443
        [[0x05, 0x02, 0x07], [0x01, 0x00], [0x05, 0x00]]).outcome =
      .established ∧
    ∃ v, ([[0x05, 0x02, 0x07], [0x01, 0x00], [0x05, 0x00]] :
        List (List Nat))[0]? = some v ∧ v.length ≠ 2 := by
  exact ⟨by decide, [0x05, 0x02, 0x07], by decide, by decide⟩

/-- C5 amended: each of the greeting and authentication steps performs one
chunk read and validates only the chunk's first two bytes; an absent read or
a chunk shorter than two bytes fails the step and closes the connection,
while any chunk whose first two bytes are the expected values passes. -/
theorem greeting_auth_chunk_validation :
    (∀ (p : ProxyEndpoint) (h : String) (t : Nat) (s : List (List Nat)),
      shortRead s[0]? = true →
        (socks5Connect p h t s).outcome = .failed .negotiationRejected ∧
        (socks5Connect p h t s).closed = true) ∧
    (∀ (p : ProxyEndpoint) (h : String) (t : Nat) (s : List (List Nat)),
      checkGreeting s[0]? = true → shortRead s[1]? = true →
        (socks5Connect p h t s).outcome = .failed .authRejected ∧
        (socks5Connect p h t s).closed = true) ∧
    (∀ (r : Option (List Nat)),
      (checkGreeting r = true ↔
        ∃ v, r = some v ∧ v[0]? = some 0x05 ∧ v[1]? = some 0x02) ∧
      (checkAuth r = true ↔
        ∃ v, r = some v ∧ v[0]? = some 0x01 ∧ v[1]? = some 0x00)) := by
  refine ⟨?_, ?_, ?_⟩
  · intro p h t s hs
    have hc := shortRead_fails_checks _ hs
    simp [socks5Connect, hc.1]
  · intro p h t s hg hs
    have hc := shortRead_fails_checks _ hs
    simp [socks5Connect, hg, hc.2]
  · intro r
    cases r with
    | none => simp [checkGreeting, checkAuth]
    | some v => simp [checkGreeting, checkAuth]

/-- Witness for the C5 amendment at concrete short reads. -/
theorem greeting_auth_chunk_validation_wit :
    (socks5Connect ⟨"p", 1080, "u", "w"⟩ "example.com" 443 [[0x05]]).outcome =
      .failed .negotiationRejected ∧
    (socks5Connect ⟨"p", 1080, "u", "w"⟩ "example.com" 443
        [[0x05, 0x02], [0x01]]).outcome = .failed .authRejected :=
  ⟨(greeting_auth_chunk_validation.1 ⟨"p", 1080, "u", "w"⟩ "example.com" 443
      [[0x05]] (by decide)).1,
   (greeting_auth_chunk_validation.2.1 ⟨"p", 1080, "u", "w"⟩ "example.com" 443
      [[0x05, 0x02], [0x01]] (by decide) (by decide)).1⟩

/-- C6 counterexample: the v2 handler, given an authenticated request and an
empty yet parseable proxy list, returns the 502 gateway response rather than
the 500 configuration response. -/
theorem fetchV2_empty_proxy_list_gives_502 :
    (fetchV2 ⟨.basic (some "a:b".data), "CONNECT", "example.com", none⟩
        ⟨some [⟨"a".data, "b".data⟩], some []⟩ 0 []).resp = .gateway502 ∧
    (fetchV2 ⟨.basic (some "a:b".data), "CONNECT", "example.com", none⟩
        ⟨some [⟨"a".data, "b".data⟩], some []⟩ 0 []).resp ≠ .config500 := by
  exact ⟨by decide, by decide⟩

/-- C6 amended: for an authenticated request, an unparseable proxy list
yields the 500 configuration response from both handlers with no connect
attempt; an empty list yields the 500 from the v1 handler, but the v2
handler proceeds with an undefined selection and returns the 502 gateway
response, still sending no handshake bytes. -/
theorem config_error_responses (req : InboundRequest) (env : WorkerEnv)
    (pick : Nat) (script : List (List Nat))
    (hauth : authPasses req.auth env.users = true) :
    (env.proxies = none →
      fetchV2 req env pick script = ⟨.config500, none, none, []⟩ ∧
      fetchV1 req env pick script = ⟨.config500, none, none, []⟩) ∧
    (env.proxies = some [] →
      fetchV1 req env pick script = ⟨.config500, none, none, []⟩ ∧
      (fetchV2 req env pick script).resp = .gateway502 ∧
      (fetchV2 req env pick script).sentBytes = []) := by
  cases hA : req.auth with
  | missing => rw [hA] at hauth; simp [authPasses] at hauth
  | notBasic v => rw [hA] at hauth; simp [authPasses] at hauth
  | basic d =>
    rw [hA] at hauth
    refine ⟨fun hp => ?_, fun hp => ?_⟩
    · simp [fetchV2, fetchV1, hA, hauth, hp]
    · cases hm : (req.method == "CONNECT") <;>
        simp [fetchV2, fetchV1, hA, hauth, hp, hm, connectAndRespond]

/-- Witness for the C6 amendment at a concrete request and environment. -/
theorem config_error_responses_wit :
    fetchV1 ⟨.basic (some "a:b".data), "CONNECT", "example.com", none⟩
        ⟨some [⟨"a".data, "b".data⟩], none⟩ 0 [] =
      ⟨.config500, none, none, []⟩ ∧
    fetchV1 ⟨.basic (some "a:b".data), "CONNECT", "example.com", none⟩
        ⟨some [⟨"a".data, "b".data⟩], some []⟩ 0 [] =
      ⟨.config500, none, none, []⟩ :=
  ⟨((config_error_responses
      ⟨.basic (some "a:b".data), "CONNECT", "example.com", none⟩
      ⟨some [⟨"a".data, "b".data⟩], none⟩ 0 [] (by decide)).1 rfl).2,
   ((config_error_responses
      ⟨.basic (some "a:b".data), "CONNECT", "example.com", none⟩
      ⟨some [⟨"a".data, "b".data⟩], some []⟩ 0 [] (by decide)).2 rfl).1⟩

/-- C7 counterexample: a request whose Basic credentials are not in the
store gets a 407 response without the Proxy-Authenticate challenge header,
from both handlers. -/
theorem invalid_creds_407_lacks_challenge :
    (fetchV2 ⟨.basic (some "a:wrong".data), "CONNECT", "example.com", none⟩
        ⟨some [⟨"a".data, "b".data⟩], some [⟨"p", 1080, "u", "w"⟩]⟩ 0
        []).resp = .auth407 false ∧
    (fetchV1 ⟨.basic (some "a:wrong".data), "CONNECT", "example.com", none⟩
        ⟨some [⟨"a".data, "b".data⟩], some [⟨"p", 1080, "u", "w"⟩]⟩ 0
        []).resp = .auth407 false := by
  exact ⟨by decide, by decide⟩

/-- C7 amended: a missing or non-Basic `Proxy-Authorization` header yields
the 407 with the Proxy-Authenticate challenge header; a Basic header whose
credentials fail to decode or to match the store yields the 407 without the
challenge header.  Both handlers agree. -/
theorem auth_failure_responses (req : InboundRequest) (env : WorkerEnv)
    (pick : Nat) (script : List (List Nat)) :
    ((req.auth = .missing ∨ ∃ v, req.auth = .notBasic v) →
      fetchV2 req env pick script = ⟨.auth407 true, none, none, []⟩ ∧
      fetchV1 req env pick script = ⟨.auth407 true, none, none, []⟩) ∧
    (∀ d, req.auth = .basic d → authPasses req.auth env.users = false →
      fetchV2 req env pick script = ⟨.auth407 false, none, none, []⟩ ∧
      fetchV1 req env pick script = ⟨.auth407 false, none, none, []⟩) := by
  constructor
  · rintro (ha | ⟨v, ha⟩) <;> simp [fetchV2, fetchV1, ha]
  · intro d hd hauth
    rw [hd] at hauth
    simp [fetchV2, fetchV1, hd, hauth]

/-- Witness for the C7 amendment at a concrete missing header and concrete
rejected credentials. -/
theorem auth_failure_responses_wit :
    (fetchV2 ⟨.missing, "GET", "example.com", none⟩ ⟨none, none⟩ 0 [] =
        ⟨.auth407 true, none, none, []⟩ ∧
     fetchV1 ⟨.missing, "GET", "example.com", none⟩ ⟨none, none⟩ 0 [] =
        ⟨.auth407 true, none, none, []⟩) ∧
    (fetchV2 ⟨.basic (some "a:wrong".data), "GET", "example.com", none⟩
        ⟨some [⟨"a".data, "b".data⟩], none⟩ 0 [] =
        ⟨.auth407 false, none, none, []⟩ ∧
     fetchV1 ⟨.basic (some "a:wrong".data), "GET", "example.com", none⟩
        ⟨some [⟨"a".data, "b".data⟩], none⟩ 0 [] =
        ⟨.auth407 false, none, none, []⟩) :=
  ⟨(auth_failure_responses ⟨.missing, "GET", "example.com", none⟩
      ⟨none, none⟩ 0 []).1 (Or.inl rfl),
   (auth_failure_responses ⟨.basic (some "a:wrong".data), "GET",
      "example.com", none⟩ ⟨some [⟨"a".data, "b".data⟩], none⟩ 0 []).2
     (some "a:wrong".data) rfl (by decide)⟩

/-- C8: an unauthenticated request gets a 407 from both handlers with the
proxy-selection step never run, no `socks5.connect` invocation, and no
handshake bytes sent. -/
theorem unauthenticated_no_proxy_contact (req : InboundRequest)
    (env : WorkerEnv) (pick : Nat) (script : List (List Nat))
    (hauth : authPasses req.auth env.users = false) :
    (∃ b, (fetchV2 req env pick script).resp = .auth407 b) ∧
    (fetchV2 req env pick script).selected = none ∧
    (fetchV2 req env pick script).socksTarget = none ∧
    (fetchV2 req env pick script).sentBytes = [] ∧
    (∃ b, (fetchV1 req env pick script).resp = .auth407 b) ∧
    (fetchV1 req env pick script).selected = none ∧
    (fetchV1 req env pick script).socksTarget = none ∧
    (fetchV1 req env pick script).sentBytes = [] := by
  cases hA : req.auth with
  | missing => simp [fetchV2, fetchV1, hA]
  | notBasic v => simp [fetchV2, fetchV1, hA]
  | basic d =>
    rw [hA] at hauth
    simp [fetchV2, fetchV1, hA, hauth]

/-- Witness for C8 at concrete rejected credentials. -/
theorem unauthenticated_no_proxy_contact_wit :
    (∃ b, (fetchV2 ⟨.basic (some "a:wrong".data), "CONNECT", "example.com",
        none⟩ ⟨some [⟨"a".data, "b".data⟩], some [⟨"p", 1080, "u", "w"⟩]⟩ 0
        []).resp = .auth407 b) ∧
    (fetchV2 ⟨.basic (some "a:wrong".data), "CONNECT", "example.com", none⟩
        ⟨some [⟨"a".data, "b".data⟩], some [⟨"p", 1080, "u", "w"⟩]⟩ 0
        []).selected = none ∧
    (fetchV2 ⟨.basic (some "a:wrong".data), "CONNECT", "example.com", none⟩
        ⟨some [⟨"a".data, "b".data⟩], some [⟨"p", 1080, "u", "w"⟩]⟩ 0
        []).socksTarget = none ∧
    (fetchV2 ⟨.basic (some "a:wrong".data), "CONNECT", "example.com", none⟩
        ⟨some [⟨"a".data, "b".data⟩], some [⟨"p", 1080, "u", "w"⟩]⟩ 0
        []).sentBytes = [] ∧
    (∃ b, (fetchV1 ⟨.basic (some "a:wrong".data), "CONNECT", "example.com",
        none⟩ ⟨some [⟨"a".data, "b".data⟩], some [⟨"p", 1080, "u", "w"⟩]⟩ 0
        []).resp = .auth407 b) ∧
    (fetchV1 ⟨.basic (some "a:wrong".data), "CONNECT", "example.com", none⟩
        ⟨some [⟨"a".data, "b".data⟩], some [⟨"p", 1080, "u", "w"⟩]⟩ 0
        []).selected = none ∧
    (fetchV1 ⟨.basic (some "a:wrong".data), "CONNECT", "example.com", none⟩
        ⟨some [⟨"a".data, "b".data⟩], some [⟨"p", 1080, "u", "w"⟩]⟩ 0
        []).socksTarget = none ∧
    (fetchV1 ⟨.basic (some "a:wrong".data), "CONNECT", "example.com", none⟩
        ⟨some [⟨"a".data, "b".data⟩], some [⟨"p", 1080, "u", "w"⟩]⟩ 0
        []).sentBytes = [] :=
  unauthenticated_no_proxy_contact
    ⟨.basic (some "a:wrong".data), "CONNECT", "example.com", none⟩
    ⟨some [⟨"a".data, "b".data⟩], some [⟨"p", 1080, "u", "w"⟩]⟩ 0 []
    (by decide)

/-- Every path through `connectAndRespond` records the same target. -/
theorem connectAndRespond_socksTarget (chosen : Option ProxyEndpoint)
    (h : String) (port : Nat) (script : List (List Nat)) (success : RespKind) :
    (connectAndRespond chosen h port script success).socksTarget =
      some (h, port) := by
  cases chosen with
  | none => rfl
  | some p =>
    simp only [connectAndRespond]
    cases (socks5Connect p h port script).outcome <;> rfl

/-- C9 counterexample: the v1 handler invokes the handshake with default
port 443 for a GET request whose URL has no port, although GET is not
CONNECT. -/
theorem fetchV1_get_default_port_443 :
    (fetchV1 ⟨.basic (some "a:b".data), "GET", "example.com", none⟩
        ⟨some [⟨"a".data, "b".data⟩], some [⟨"p", 1080, "u", "w"⟩]⟩ 0
        []).socksTarget = some ("example.com", 443) ∧
    ("GET" : String) ≠ "CONNECT" := by
  exact ⟨by decide, by decide⟩

/-- C9 amended: when the target URL carries no port, the v2 handler passes
default port 443 to the handshake for CONNECT requests and 80 for every
other method, while the v1 handler passes 443 for every method. -/
theorem default_target_ports (req : InboundRequest) (env : WorkerEnv)
    (pick : Nat) (script : List (List Nat)) (proxies : List ProxyEndpoint)
    (hauth : authPasses req.auth env.users = true)
    (hp : env.proxies = some proxies) (hne : proxies ≠ [])
    (hport : req.urlPort = none) :
    (fetchV2 req env pick script).socksTarget =
      some (req.urlHost, if req.method == "CONNECT" then 443 else 80) ∧
    (fetchV1 req env pick script).socksTarget =
      some (req.urlHost, 443) := by
  have hie : proxies.isEmpty = false := by
    cases proxies with
    | nil => exact absurd rfl hne
    | cons x xs => rfl
  cases hA : req.auth with
  | missing => rw [hA] at hauth; simp [authPasses] at hauth
  | notBasic v => rw [hA] at hauth; simp [authPasses] at hauth
  | basic d =>
    rw [hA] at hauth
    cases hm : (req.method == "CONNECT") <;>
      simp [fetchV2, fetchV1, hA, hauth, hp, hm, hie, hport,
        connectAndRespond_socksTarget, portOrDefault]

/-- Witness for the C9 amendment at a concrete portless GET request. -/
theorem default_target_ports_wit :
    (fetchV2 ⟨.basic (some "a:b".data), "GET", "example.com", none⟩
        ⟨some [⟨"a".data, "b".data⟩], some [⟨"p", 1080, "u", "w"⟩]⟩ 0
        []).socksTarget =
      some ("example.com", if ("GET" : String) == "CONNECT" then 443 else 80) ∧
    (fetchV1 ⟨.basic (some "a:b".data), "GET", "example.com", none⟩
        ⟨some [⟨"a".data, "b".data⟩], some [⟨"p", 1080, "u", "w"⟩]⟩ 0
        []).socksTarget = some ("example.com", 443) :=
  default_target_ports
    ⟨.basic (some "a:b".data), "GET", "example.com", none⟩
    ⟨some [⟨"a".data, "b".data⟩], some [⟨"p", 1080, "u", "w"⟩]⟩ 0 []
    [⟨"p", 1080, "u", "w"⟩] (by decide) rfl (by decide) rfl

/-- C10: the credential check splits the decoded string on every colon and
compares only the first two segments, so the compared password is exactly
the text between the first and second colon and never contains a colon; a
stored entry whose password contains a colon therefore never matches any
decoded credential string. -/
theorem colon_password_never_matches :
    (∀ (u p r : List Char), ':' ∉ u → ':' ∉ p →
      credsUser (u ++ ':' :: (p ++ ':' :: r)) = some u ∧
      credsPass (u ++ ':' :: (p ++ ':' :: r)) = some p) ∧
    (∀ (e : UserEntry) (s : List Char), ':' ∈ e.pass →
      credsMatch [e] s = false) := by
  constructor
  · intro u p r hu hp
    have h1 : splitOnColon (u ++ ':' :: (p ++ ':' :: r)) =
        u :: splitOnColon (p ++ ':' :: r) :=
      splitOnColon_append_colon u (p ++ ':' :: r) hu
    have h2 : splitOnColon (p ++ ':' :: r) = p :: splitOnColon r :=
      splitOnColon_append_colon p r hp
    exact ⟨by simp [credsUser, h1], by simp [credsPass, h1, h2]⟩
  · intro e s he
    simp only [credsMatch, List.any_cons, List.any_nil, Bool.or_false]
    cases hcp : credsPass s with
    | none => simp [hcp]
    | some q =>
      by_cases hq : q = e.pass
      · exact absurd he (hq ▸ credsPass_no_colon s q hcp)
      · simp [hcp, hq]

/-- Witness for C10 at the decoded string `a:b:c` against stored password
`b:c`. -/
theorem colon_password_never_matches_wit :
    (credsUser ("a".data ++ ':' :: ("b".data ++ ':' :: "c".data)) =
        some "a".data ∧
     credsPass ("a".data ++ ':' :: ("b".data ++ ':' :: "c".data)) =
        some "b".data) ∧
    credsMatch [⟨"a".data, "b:c".data⟩] "a:b:c".data = false :=
  ⟨colon_password_never_matches.1 "a".data "b".data "c".data (by decide)
     (by decide),
   colon_password_never_matches.2 ⟨"a".data, "b:c".data⟩ "a:b:c".data
     (by decide)⟩
